import Mathlib

set_option maxHeartbeats 1000000

/-!
Verification of the fixture program `try_it_out.cpp` and of the Fixture
Validation Harness specified for it.  The fixture definitions (variable
values, container contents, the `main` return value) are translated from
`src/try_it_out.cpp`.  The harness components (Type Shape Registry, Value
Renderer, Golden Comparator, Scenario Runner) do not exist in the source
tree; they are modelled from the spec, as marked on each definition.
-/

/-- Values observable in the target process memory: scalars, sequences and
string-keyed mappings — the shapes the fixture instantiates. -/
inductive Value where
  | int (n : Int)
  | str (s : String)
  | ptr (a : Nat)
  | seq (elems : List Value)
  | mapping (pairs : List (String × Value))

mutual

/-- Modelled from the spec: the Value Renderer display form of a value,
recursing into elements of sequential containers and key/value pairs of
associative containers.  The concrete text forms come from the spec's
golden examples: owning pointers via a dereference line, sequences as a
bracketed comma-separated list with strings quoted, mappings as a braced
comma-separated list of quoted-key colon value pairs. -/
def renderVal : Value → String
  | .int n => toString n
  | .str s => "\"" ++ s ++ "\""
  | .ptr a => "0x" ++ toString a
  | .seq es => "[" ++ renderElems es ++ "]"
  | .mapping ps => "\x7b" ++ renderPairs ps ++ "\x7d"

/-- Comma-separated rendering of the elements of a sequential container. -/
def renderElems : List Value → String
  | [] => ""
  | [v] => renderVal v
  | v :: rest => renderVal v ++ "," ++ renderElems rest

/-- Comma-separated rendering of the key/value pairs of a mapping. -/
def renderPairs : List (String × Value) → String
  | [] => ""
  | [(k, v)] => "\"" ++ k ++ "\":" ++ renderVal v
  | (k, v) :: rest => "\"" ++ k ++ "\":" ++ renderVal v ++ "," ++ renderPairs rest

end

/-- Target memory: a partial map from addresses to stored values; `none`
means the address is unmapped. -/
def Mem : Type := Nat → Option Value

/-- Modelled from the spec: the per-variable (recoverable) error kinds of
the harness error taxonomy. -/
inductive PerVarError where
  | SymbolNotFoundError
  | TypeLookupError
  | MemoryReadError
  deriving DecidableEq

/-- Modelled from the spec: the fatal (run-aborting) error kinds of the
harness error taxonomy. -/
inductive FatalError where
  | AttachError
  | BreakpointError
  | BreakpointTimeoutError
  | NoMatchingShapeError
  deriving DecidableEq

/-- Modelled from the spec: any harness error is either fatal or
per-variable. -/
inductive HarnessError where
  | fatal (e : FatalError)
  | perVar (e : PerVarError)

/-- Modelled from the spec: the error taxonomy categories. -/
inductive ErrorCategory where
  | fatalCat
  | perVariable
  | configuration
  deriving DecidableEq

/-- Modelled from the spec: which taxonomy category an error belongs to.
Symbol-not-found, type-lookup and memory-read failures are per-variable
and recoverable; attach, breakpoint and unmatched-shape failures abort the
run. -/
def categorize : HarnessError → ErrorCategory
  | .fatal _ => .fatalCat
  | .perVar _ => .perVariable

/-- The textual form of a per-variable error used in a report entry. -/
def perVarMsg : PerVarError → String
  | .SymbolNotFoundError => "SymbolNotFoundError"
  | .TypeLookupError => "TypeLookupError"
  | .MemoryReadError => "MemoryReadError"

/-- Modelled from the spec: a Resolved Symbol — name, type descriptor and
memory location, as produced by the Symbol Resolver. -/
structure ResolvedSymbol where
  name : String
  typeDesc : String
  addr : Nat

/-- Modelled from the spec: a Type Shape — an identifier, a matcher over
declared-type text and a render rule over target memory. -/
structure TypeShape where
  shapeId : String
  matcher : String → Bool
  renderRule : Mem → ResolvedSymbol → Except PerVarError String

/-- Modelled from the spec: Type Shape Registry lookup.  Shapes are tried
in registration order; the first whose matcher accepts the declared type
wins; if none matches the lookup fails with `NoMatchingShapeError`. -/
def matchShape : List TypeShape → String → Except FatalError TypeShape
  | [], _ => .error .NoMatchingShapeError
  | s :: rest, t => if s.matcher t then .ok s else matchShape rest t

/-- Modelled from the spec: a Golden Comparator verdict. -/
inductive Verdict where
  | pass
  | fail (diff : String)
  deriving DecidableEq

/-- Is a verdict a Pass? -/
def isPass : Verdict → Bool
  | .pass => true
  | .fail _ => false

/-- Modelled from the spec: normalization of a rendered value before the
literal comparison — every occurrence of a known run-variant substring
(addresses, container capacity) is substituted by the wildcard token. -/
def normalizeVariants (variants : List String) (s : String) : String :=
  variants.foldl (fun acc v => acc.replace v "*") s

/-- Modelled from the spec: generating a golden template by escaping a
rendered value, with wildcards applied to known-variant substrings. -/
def escapeGolden (variants : List String) (rendered : String) : String :=
  normalizeVariants variants rendered

/-- Modelled from the spec: the Golden Comparator — exact string match
after wildcard normalization; no fuzzy comparison. -/
def compareGolden (variants : List String) (rendered golden : String) : Verdict :=
  if normalizeVariants variants rendered = golden then .pass
  else .fail ("expected " ++ golden ++ " but got " ++ rendered)

/-- Modelled from the spec: a Fixture Variable — a name and its expected
golden template. -/
structure FixtureVar where
  name : String
  golden : String

/-- Modelled from the spec: the harness environment for one scenario —
the Symbol Resolver, the Type Shape Registry, the target memory and the
known run-variant substrings. -/
structure Env where
  resolve : String → Except PerVarError ResolvedSymbol
  registry : List TypeShape
  mem : Mem
  variants : List String

/-- Modelled from the spec: the Value Renderer entry point — look up the
matching shape for the symbol's type descriptor (an unmatched shape is a
fatal harness defect), then apply that shape's render rule against target
memory. -/
def renderOut (reg : List TypeShape) (mem : Mem) (sym : ResolvedSymbol) :
    Except FatalError (Except PerVarError String) :=
  match matchShape reg sym.typeDesc with
  | .error _ => .error .NoMatchingShapeError
  | .ok shape => .ok (shape.renderRule mem sym)

/-- Modelled from the spec: processing of one Fixture Variable — resolve,
render, compare.  A per-variable error downgrades the variable to a fail
entry; an unmatched type shape is fatal. -/
def processVar (env : Env) (v : FixtureVar) : Except FatalError (String × Verdict) :=
  match env.resolve v.name with
  | .error e => .ok (v.name, .fail (perVarMsg e))
  | .ok sym =>
    match renderOut env.registry env.mem sym with
    | .error f => .error f
    | .ok (.error e) => .ok (v.name, .fail (perVarMsg e))
    | .ok (.ok text) => .ok (v.name, compareGolden env.variants text v.golden)

/-- Modelled from the spec: the Scenario Runner iterates the Fixture
Variables sequentially in declaration order; a fatal error aborts the run,
while per-variable failures are recorded and the run proceeds. -/
def runScenario (env : Env) : List FixtureVar → Except FatalError (List (String × Verdict))
  | [] => .ok []
  | v :: rest =>
    match processVar env v with
    | .error f => .error f
    | .ok entry =>
      match runScenario env rest with
      | .error f => .error f
      | .ok rep => .ok (entry :: rep)

/-- The report entry a non-fatal variable produces; on the (excluded)
fatal path a fail entry naming the fatal error stands in. -/
def varEntry (env : Env) (v : FixtureVar) : String × Verdict :=
  match processVar env v with
  | .ok entry => entry
  | .error _ => (v.name, .fail "NoMatchingShapeError")

/-- Modelled from the spec: a scenario passes when every variable entry of
its report is a Pass. -/
def scenarioAllPass (rep : List (String × Verdict)) : Bool :=
  rep.all (fun p => isPass p.2)

/-- Modelled from the spec: the overall process exit status — 0 only when
every variable in every scenario passed. -/
def exitStatus (runs : List (List (String × Verdict))) : Nat :=
  if runs.all scenarioAllPass then 0 else 1

/-- Modelled from the spec: an inspection-session action — either a render
of a symbol (which only reads the target) or a target step (which may
change target memory). -/
inductive SessionAction where
  | render (sym : ResolvedSymbol)
  | step (f : Mem → Mem)

/-- Is an action a target step? -/
def SessionAction.isStep : SessionAction → Bool
  | .step _ => true
  | .render _ => false

/-- Modelled from the spec: effect of one action on target memory —
rendering performs only reads, a target step applies its memory change. -/
def stepMem (mem : Mem) : SessionAction → Mem
  | .render _ => mem
  | .step f => f mem

/-- Target memory after a sequence of session actions. -/
def execMem (mem : Mem) : List SessionAction → Mem
  | [] => mem
  | a :: rest => execMem (stepMem mem a) rest

/-- Modelled from the spec: reading a symbol's value from memory and
rendering it with the shape's rule; an unmapped address is a
`MemoryReadError`. -/
def readAndRender (mem : Mem) (sym : ResolvedSymbol) : Except PerVarError String :=
  match mem sym.addr with
  | none => .error .MemoryReadError
  | some v => .ok (renderVal v)

/-- Modelled from the spec: the owning-pointer render rule — read the
pointer value, dereference it, and display the pointee as a dereference
line.  An unmapped address at either level is a `MemoryReadError`; a
non-pointer stored value is a type-lookup failure. -/
def owningPtrRender (mem : Mem) (sym : ResolvedSymbol) : Except PerVarError String :=
  match mem sym.addr with
  | none => .error .MemoryReadError
  | some (Value.ptr a) =>
    match mem a with
    | none => .error .MemoryReadError
    | some v => .ok ("*" ++ sym.name ++ " = " ++ renderVal v)
  | some _ => .error .TypeLookupError

/-! Fixture embedding, translated from `src/try_it_out.cpp`. -/

/-- From the source: `int basic_int = 42;`. -/
def basic_int : Int := 42

/-- From the source: `int* int_ptr = &basic_int;` — the memory as seen at
the inspection point, given the (run-dependent) addresses `p` of
`int_ptr` and `b` of `basic_int`: `int_ptr` stores a pointer to `b`, and
`b` stores the value of `basic_int`. -/
def intPtrMem (p b : Nat) : Mem := fun a =>
  if a = p then some (Value.ptr b)
  else if a = b then some (Value.int basic_int)
  else none

/-- From the source: `std::vector<std::string> vec = {"A", "B", "C"};`. -/
def vec : List Value := [.str "A", .str "B", .str "C"]

/-- Lexicographic order on character lists by code point, the order
`std::string` comparison gives `std::map` keys. -/
def charListLt : List Char → List Char → Bool
  | [], [] => false
  | [], _ :: _ => true
  | _ :: _, [] => false
  | a :: as, b :: bs =>
    if a.val < b.val then true
    else if b.val < a.val then false
    else charListLt as bs

/-- Lexicographic order on strings. -/
def strLt (a b : String) : Bool := charListLt a.data b.data

/-- Ordered insertion into a key-sorted association list — the
`std::map` insertion semantics the fixture's initializer list goes
through: keys are kept in lexicographic order and an existing key is not
overwritten. -/
def mapInsert (k : String) (v : Value) : List (String × Value) → List (String × Value)
  | [] => [(k, v)]
  | (k2, v2) :: rest =>
    if strLt k k2 then (k, v) :: (k2, v2) :: rest
    else if strLt k2 k then (k2, v2) :: mapInsert k v rest
    else (k2, v2) :: rest

/-- From the source: `std::map<std::string, int> str_int_map = ...` —
the initializer list inserts `("One", 1)`, `("Two", 2)`, `("Three", 3)`
in that order into an empty ordered map. -/
def str_int_map : List (String × Value) :=
  mapInsert "Three" (.int 3) (mapInsert "Two" (.int 2) (mapInsert "One" (.int 1) []))

/-- All ways of inserting an element into a list. -/
def insertsOf (x : α) : List α → List (List α)
  | [] => [[x]]
  | y :: ys => (x :: y :: ys) :: (insertsOf x ys).map (fun l => y :: l)

/-- All permutations of a list, by repeated insertion. -/
def permsOf : List α → List (List α)
  | [] => [[]]
  | x :: xs => ((permsOf xs).map (insertsOf x)).flatten

/-- Modelled from the spec: an unordered-mapping golden accepts a rendered
mapping when it is the rendering of some permutation of the golden's
pairs. -/
def acceptsUnordered (goldenPairs : List (String × Value)) (rendered : String) : Bool :=
  (permsOf goldenPairs).any (fun p => renderVal (.mapping p) == rendered)

/-- A FIFO queue of ints, elements front to back — `std::queue<int>`. -/
structure Queue where
  elems : List Int

/-- `std::queue::push`: enqueue at the back. -/
def Queue.push (q : Queue) (x : Int) : Queue := ⟨q.elems ++ [x]⟩

/-- A double-ended queue of ints, front to back — `std::deque<int>`. -/
structure Deque where
  elems : List Int

/-- `std::deque::push_back`: append at the back. -/
def Deque.push_back (d : Deque) (x : Int) : Deque := ⟨d.elems ++ [x]⟩

/-- A doubly-linked list of ints, front to back — `std::list<int>`. -/
structure CppList where
  elems : List Int

/-- `std::list::push_back`: append at the back. -/
def CppList.push_back (l : CppList) (x : Int) : CppList := ⟨l.elems ++ [x]⟩

/-- A LIFO stack of ints, top element first — `std::stack<int>`. -/
structure Stack where
  elems : List Int

/-- `std::stack::push`: push on top. -/
def Stack.push (s : Stack) (x : Int) : Stack := ⟨x :: s.elems⟩

/-- `std::stack::top` as an optional value. -/
def Stack.top : Stack → Option Int
  | ⟨[]⟩ => none
  | ⟨x :: _⟩ => some x

/-- From the source: `int_queue.push(1); int_queue.push(2); int_queue.push(3);`. -/
def int_queue : Queue := (((Queue.mk []).push 1).push 2).push 3

/-- From the source: `int_deque.push_back(1); ... push_back(3);`. -/
def int_deque : Deque := (((Deque.mk []).push_back 1).push_back 2).push_back 3

/-- From the source: `int_list.push_back(1); ... push_back(3);`. -/
def int_list : CppList := (((CppList.mk []).push_back 1).push_back 2).push_back 3

/-- From the source: `int_stack.push(1); int_stack.push(2); int_stack.push(3);`. -/
def int_stack : Stack := (((Stack.mk []).push 1).push 2).push 3

/-- From the source: `return 0;` — the value `main` returns. -/
def mainReturn : Int := 0

/-- Modelled from the spec: the owning-pointer shape registered for the
fixture scenario; its matcher accepts the pointer declared type. -/
def owningPtrShape : TypeShape :=
  ⟨"owning-pointer", fun t => t = "int *", owningPtrRender⟩

/-- Modelled from the spec: the sequence shape registered for the fixture
scenario; its matcher accepts the fixture's sequential container types. -/
def seqShape : TypeShape :=
  ⟨"sequence", fun t => t = "std::vector<std::string>" || t = "std::array<int, 3>",
    readAndRender⟩

/-- Modelled from the spec: the ordered-mapping shape registered for the
fixture scenario. -/
def mappingShape : TypeShape :=
  ⟨"ordered-mapping", fun t => t = "std::map<std::string, int>", readAndRender⟩

/-- The registry for the fixture scenario, in registration order: the more
specific owning-pointer shape first. -/
def fixtureRegistry : List TypeShape := [owningPtrShape, seqShape, mappingShape]

/-- First registered shape accepted for a declared type, the spec-side
characterization of registry lookup. -/
def firstShape (reg : List TypeShape) (t : String) : Option TypeShape :=
  reg.find? (fun s => s.matcher t)

/-- Target memory at a breakpoint placed after `vec`'s initializer
(line 43) and before line 44: `vec` (at address 0) is initialized while
`arr` (at address 1) is still unmapped — from the source, `std::array<int,
3> arr;` is never initialized. -/
def c9Mem : Mem := fun a => if a = 0 then some (.seq vec) else none

/-- Symbol resolution for the uninitialized-variable scenario. -/
def c9Resolve : String → Except PerVarError ResolvedSymbol := fun n =>
  if n = "vec" then .ok ⟨"vec", "std::vector<std::string>", 0⟩
  else if n = "arr" then .ok ⟨"arr", "std::array<int, 3>", 1⟩
  else .error .SymbolNotFoundError

/-- The harness environment for the uninitialized-variable scenario. -/
def c9Env : Env := ⟨c9Resolve, fixtureRegistry, c9Mem, []⟩

/-- The Fixture Variable for `vec` with its golden from the spec. -/
def vecVar : FixtureVar := ⟨"vec", "[\"A\",\"B\",\"C\"]"⟩

/-- The Fixture Variable for the never-initialized `arr`. -/
def arrVar : FixtureVar := ⟨"arr", "[]"⟩

/-! Theorems. -/

/-- A sequence of actions containing no target step leaves target memory
unchanged. -/
theorem execMem_no_step (l : List SessionAction) :
    ∀ (mem : Mem), (∀ a ∈ l, a.isStep = false) → execMem mem l = mem := by
  induction l with
  | nil => intro mem _; rfl
  | cons a rest ih =>
    intro mem h
    cases a with
    | render s =>
      have := ih mem (fun x hx => h x (List.mem_cons_of_mem _ hx))
      simpa [execMem, stepMem] using this
    | step f =>
      exact absurd (h _ (List.mem_cons_self _ _)) (by simp [SessionAction.isStep])

/-- The Scenario Runner, under a registry matching every resolved symbol,
reports one entry per variable, each computed from that variable alone. -/
theorem runScenario_eq_map (env : Env) :
    ∀ (vars : List FixtureVar), (∀ v ∈ vars, ∃ e, processVar env v = .ok e) →
      runScenario env vars = .ok (vars.map (varEntry env)) := by
  intro vars
  induction vars with
  | nil => intro _; rfl
  | cons v rest ih =>
    intro h
    obtain ⟨e, he⟩ := h v (List.mem_cons_self _ _)
    have hrest := ih (fun x hx => h x (List.mem_cons_of_mem _ hx))
    simp [runScenario, he, hrest, varEntry]

/-- A verdict is a Pass exactly when it is the `pass` constructor. -/
theorem isPass_iff (v : Verdict) : isPass v = true ↔ v = Verdict.pass := by
  cases v <;> simp [isPass]

/-- Claim C1: in the end-to-end scenario, for any run-dependent distinct
addresses of `int_ptr` and `basic_int`, dereferencing `int_ptr` yields the
integer 42, the owning-pointer shape renders it as `*int_ptr = 42`, and
the Golden Comparator passes it against the spec's golden. -/
theorem int_ptr_deref_golden (p b : Nat) (h : p ≠ b) :
    intPtrMem p b b = some (Value.int 42)
    ∧ owningPtrRender (intPtrMem p b) ⟨"int_ptr", "int *", p⟩ = .ok "*int_ptr = 42"
    ∧ compareGolden [] "*int_ptr = 42" "*int_ptr = 42" = .pass := by
  have hbp : ¬(b = p) := fun hh => h hh.symm
  refine ⟨?_, ?_, rfl⟩
  · simp [intPtrMem, hbp, basic_int]
  · simp [owningPtrRender, intPtrMem, hbp, basic_int]
    rfl

theorem int_ptr_deref_golden_witness :
    (0 : Nat) ≠ 1
    ∧ (intPtrMem 0 1 1 = some (Value.int 42)
        ∧ owningPtrRender (intPtrMem 0 1) ⟨"int_ptr", "int *", 0⟩ = .ok "*int_ptr = 42"
        ∧ compareGolden [] "*int_ptr = 42" "*int_ptr = 42" = .pass) :=
  ⟨by decide, int_ptr_deref_golden 0 1 (by decide)⟩

/-- Claim C2: the fixture's `vec` contains exactly the strings "A", "B",
"C" in that order, the sequence shape renders it as the spec's golden
text, and the Golden Comparator passes it. -/
theorem vec_seq_golden :
    vec = [Value.str "A", Value.str "B", Value.str "C"]
    ∧ renderVal (.seq vec) = "[\"A\",\"B\",\"C\"]"
    ∧ compareGolden [] (renderVal (.seq vec)) "[\"A\",\"B\",\"C\"]" = .pass :=
  ⟨rfl, rfl, rfl⟩

/-- Claim C3: the fixture's `str_int_map`, built by inserting
`("One", 1)`, `("Two", 2)`, `("Three", 3)` into an ordered map with
lexicographic string keys, holds its pairs in the fixed order "One",
"Three", "Two"; the ordered-mapping shape renders it as the spec's
golden; and under the unordered-mapping discipline every permutation of
the three pairs is accepted. -/
theorem str_int_map_ordered_golden :
    str_int_map = [("One", Value.int 1), ("Three", Value.int 3), ("Two", Value.int 2)]
    ∧ renderVal (.mapping str_int_map) = "\x7b\"One\":1,\"Three\":3,\"Two\":2\x7d"
    ∧ compareGolden [] (renderVal (.mapping str_int_map))
        "\x7b\"One\":1,\"Three\":3,\"Two\":2\x7d" = .pass
    ∧ ∀ l ∈ permsOf [("One", Value.int 1), ("Two", Value.int 2), ("Three", Value.int 3)],
        acceptsUnordered [("One", Value.int 1), ("Two", Value.int 2), ("Three", Value.int 3)]
          (renderVal (.mapping l)) = true :=
  ⟨rfl, rfl, rfl, by decide⟩

/-- Claim C4: registry lookup is the first registered shape whose matcher
accepts the declared type, and it fails with `NoMatchingShapeError`
exactly when no registered matcher accepts it. -/
theorem registry_match_first_wins (reg : List TypeShape) (t : String) :
    matchShape reg t = (match firstShape reg t with
      | some s => Except.ok s
      | none => Except.error FatalError.NoMatchingShapeError)
    ∧ (matchShape reg t = Except.error FatalError.NoMatchingShapeError
        ↔ ∀ s ∈ reg, s.matcher t = false) := by
  induction reg with
  | nil => simp [matchShape, firstShape, List.find?]
  | cons s rest ih =>
    obtain ⟨ih1, ih2⟩ := ih
    by_cases h : s.matcher t = true
    · constructor
      · simp [matchShape, firstShape, List.find?, h]
      · simp [matchShape, h]
    · constructor
      · simpa [matchShape, firstShape, List.find?, h] using ih1
      · have hstep : matchShape (s :: rest) t = matchShape rest t := by
          simp only [matchShape, if_neg h]
        rw [hstep, ih2]
        constructor
        · intro hr x hx
          rcases List.mem_cons.mp hx with rfl | hx2
          · exact Bool.eq_false_iff.mpr h
          · exact hr x hx2
        · intro hall x hx
          exact hall x (List.mem_cons_of_mem _ hx)

theorem registry_match_first_wins_witness :
    matchShape fixtureRegistry "std::vector<std::string>" = Except.ok seqShape := by
  have h := (registry_match_first_wins fixtureRegistry "std::vector<std::string>").1
  rw [h]
  rfl

/-- Claim C5: rendering is idempotent — rendering a resolved symbol, then
performing any sequence of actions containing no target step, leaves the
render output of that symbol unchanged. -/
theorem render_idempotent (reg : List TypeShape) (mem : Mem) (sym : ResolvedSymbol)
    (mid : List SessionAction) (h : ∀ a ∈ mid, a.isStep = false) :
    renderOut reg (execMem mem (SessionAction.render sym :: mid)) sym
      = renderOut reg mem sym := by
  have hm : execMem mem (SessionAction.render sym :: mid) = mem := by
    have : execMem mem (SessionAction.render sym :: mid) = execMem mem mid := rfl
    rw [this]
    exact execMem_no_step mid mem h
  rw [hm]

theorem render_idempotent_witness :
    (∀ a ∈ ([] : List SessionAction), a.isStep = false)
    ∧ renderOut fixtureRegistry
        (execMem c9Mem [SessionAction.render ⟨"vec", "std::vector<std::string>", 0⟩])
        ⟨"vec", "std::vector<std::string>", 0⟩
      = renderOut fixtureRegistry c9Mem ⟨"vec", "std::vector<std::string>", 0⟩ :=
  ⟨by simp, render_idempotent fixtureRegistry c9Mem ⟨"vec", "std::vector<std::string>", 0⟩ []
    (by simp)⟩

/-- Claim C6: golden comparison is reflexive — a rendered value always
passes against the golden template generated by escaping that same
rendered value with wildcards applied to the known-variant substrings. -/
theorem golden_reflexive (variants : List String) (rendered : String) :
    compareGolden variants rendered (escapeGolden variants rendered) = .pass := by
  unfold compareGolden escapeGolden
  rw [if_pos rfl]

/-- Claim C7: when every variable's processing is non-fatal (per-variable
errors included), the Scenario Runner never aborts: it reports exactly one
entry per Fixture Variable, each entry computed from that variable alone,
and a resolution failure downgrades only that variable to a fail entry. -/
theorem scenario_never_aborts (env : Env) (vars : List FixtureVar)
    (h : ∀ v ∈ vars, ∃ e, processVar env v = .ok e) :
    runScenario env vars = .ok (vars.map (varEntry env))
    ∧ (vars.map (varEntry env)).length = vars.length
    ∧ ∀ v ∈ vars, ∀ err, env.resolve v.name = Except.error err →
        varEntry env v = (v.name, Verdict.fail (perVarMsg err)) := by
  refine ⟨runScenario_eq_map env vars h, by simp, ?_⟩
  intro v _ err herr
  simp [varEntry, processVar, herr]

theorem scenario_never_aborts_witness :
    (∀ v ∈ [vecVar, arrVar, FixtureVar.mk "missing" "x"], ∃ e, processVar c9Env v = .ok e)
    ∧ runScenario c9Env [vecVar, arrVar, FixtureVar.mk "missing" "x"]
        = .ok ([vecVar, arrVar, FixtureVar.mk "missing" "x"].map (varEntry c9Env)) := by
  have h : ∀ v ∈ [vecVar, arrVar, FixtureVar.mk "missing" "x"],
      ∃ e, processVar c9Env v = .ok e := by
    intro v hv
    simp only [List.mem_cons, List.not_mem_nil, or_false] at hv
    rcases hv with rfl | rfl | rfl
    · exact ⟨("vec", Verdict.pass), rfl⟩
    · exact ⟨("arr", Verdict.fail "MemoryReadError"), rfl⟩
    · exact ⟨("missing", Verdict.fail "SymbolNotFoundError"), rfl⟩
  exact ⟨h, (scenario_never_aborts c9Env [vecVar, arrVar, FixtureVar.mk "missing" "x"] h).1⟩

/-- Claim C8: the overall exit status is 0 exactly when every variable in
every scenario passed, and a single scenario passes exactly when each of
its variables individually yields Pass. -/
theorem exit_zero_iff_all_pass (runs : List (List (String × Verdict))) :
    (exitStatus runs = 0 ↔ ∀ rep ∈ runs, ∀ p ∈ rep, p.2 = Verdict.pass)
    ∧ ∀ rep : List (String × Verdict),
        (scenarioAllPass rep = true ↔ ∀ p ∈ rep, p.2 = Verdict.pass) := by
  have hrep : ∀ rep : List (String × Verdict),
      (scenarioAllPass rep = true ↔ ∀ p ∈ rep, p.2 = Verdict.pass) := by
    intro rep
    simp only [scenarioAllPass, List.all_eq_true]
    constructor
    · intro hall p hp
      exact (isPass_iff p.2).mp (hall p hp)
    · intro hall p hp
      exact (isPass_iff p.2).mpr (hall p hp)
  refine ⟨?_, hrep⟩
  unfold exitStatus
  split_ifs with hc
  · constructor
    · intro _ rep hr p hp
      exact (hrep rep).mp (List.all_eq_true.mp hc rep hr) p hp
    · intro _
      rfl
  · constructor
    · intro h01
      exact absurd h01 (by decide)
    · intro hall
      exact absurd (List.all_eq_true.mpr fun rep hr => (hrep rep).mpr (hall rep hr)) hc

theorem exit_zero_iff_all_pass_witness :
    exitStatus [[("int_ptr", Verdict.pass)]] = 0 :=
  (exit_zero_iff_all_pass [[("int_ptr", Verdict.pass)]]).1.mpr (by
    intro rep hr p hp
    simp only [List.mem_cons, List.not_mem_nil, or_false] at hr
    subst hr
    simp only [List.mem_cons, List.not_mem_nil, or_false] at hp
    subst hp
    rfl)

/-- Claim C9: inspecting the never-initialized `arr` at a breakpoint
before any initializer reads an unmapped address, which surfaces as a
`MemoryReadError` — a per-variable, recoverable category — the scenario
still completes with a full report in which only `arr` is downgraded to
fail, and whenever the address does hold a value the shape's rule renders
it without any failure. -/
theorem arr_uninitialized_recoverable :
    readAndRender c9Mem ⟨"arr", "std::array<int, 3>", 1⟩
      = .error PerVarError.MemoryReadError
    ∧ runScenario c9Env [vecVar, arrVar]
      = .ok [("vec", Verdict.pass), ("arr", Verdict.fail "MemoryReadError")]
    ∧ categorize (.perVar .MemoryReadError) = .perVariable
    ∧ ∀ v : Value,
        readAndRender (fun a => if a = 1 then some v else c9Mem a)
          ⟨"arr", "std::array<int, 3>", 1⟩ = .ok (renderVal v) := by
  refine ⟨rfl, rfl, rfl, ?_⟩
  intro v
  simp [readAndRender]

/-- Claim C10: after the fixture's initialization statements, `int_queue`,
`int_deque` and `int_list` hold exactly 1, 2, 3 front to back, `int_stack`
holds 1, 2, 3 with 3 on top, and `main` returns 0. -/
theorem tail_containers_state :
    int_queue.elems = [1, 2, 3]
    ∧ int_deque.elems = [1, 2, 3]
    ∧ int_list.elems = [1, 2, 3]
    ∧ int_stack.elems = [3, 2, 1]
    ∧ int_stack.top = some 3
    ∧ mainReturn = 0 :=
  ⟨rfl, rfl, rfl, rfl, rfl, rfl⟩

theorem golden_reflexive_witness :
    compareGolden ["0x1f"] ("ptr at " ++ "0x1f") (escapeGolden ["0x1f"] ("ptr at " ++ "0x1f"))
      = .pass :=
  golden_reflexive ["0x1f"] ("ptr at " ++ "0x1f")
